import Mathlib

/-!
Shallow embedding of the namespace-configuration engine of
amazon-ecs-cni-plugins: the static-address setup/teardown closures
(plugins/eni/engine/nsclosure.go) and the DHCP-leased setup/teardown
closures (the unnamed engine source file), together with the helpers
they use (isRouteExistsError, getLinkByHardwareAddress, the dhclient
argument/path constructors, and models of strings.TrimSpace and
strconv.Atoi).

Kernel calls (netlink), process execution, file reads and process
control are external collaborators: each is modelled as a record of
response functions (an environment), and every closure additionally
returns the ordered list of collaborator calls it performed, so that
ordering and "no later step executed" properties can be stated.
-/

namespace EcsEni

/-- Model of a Go `error` value as the engine observes it: a raw
`syscall.Errno` (identified by its numeric code), any other leaf error
(identified by its message), or an error produced by `errors.Wrap` /
`errors.Wrapf` (a note around a cause). -/
inductive GoError where
  | errno (code : Nat)
  | msg (s : String)
  | wrapped (note : String) (cause : GoError)
deriving DecidableEq

instance {ε α : Type} [DecidableEq ε] [DecidableEq α] : DecidableEq (Except ε α) := fun a b =>
  match a, b with
  | .error e, .error f =>
    if h : e = f then .isTrue (by rw [h]) else .isFalse (by simp [h])
  | .ok x, .ok y =>
    if h : x = y then .isTrue (by rw [h]) else .isFalse (by simp [h])
  | .error _, .ok _ => .isFalse (by simp)
  | .ok _, .error _ => .isFalse (by simp)

/-- Linux `syscall.EEXIST`. -/
def EEXIST : Nat := 17

/-- Linux `syscall.RTN_BLACKHOLE`. -/
def RTN_BLACKHOLE : Nat := 6

/-- A parsed `netlink.Addr`, identified by the CIDR text it was parsed
from (the engine never looks inside an address, it only hands it back
to the netlink collaborator). -/
abbrev Addr := String

/-- A parsed `net.IP`, identified by its text form (opaque to the
engine, handed back to the netlink collaborator inside routes). -/
abbrev IP := String

/-- The fields of `netlink.LinkAttrs` the engine reads: `Name`,
`Index` and the `String()` form of `HardwareAddr`. -/
structure LinkAttrs where
  name : String
  index : Int
  hardwareAddr : String
deriving DecidableEq

/-- A `netlink.Link`, reduced to the attributes the engine reads. -/
structure Link where
  attrs : LinkAttrs
deriving DecidableEq

/-- An `*os.Process` handle, identified by its pid. -/
structure Proc where
  pid : Int
deriving DecidableEq

/-- A parsed `*net.IPNet` (only ever built from the fixed constant
`169.254.169.254/32`): the four octets and the mask width. -/
structure IPNet where
  octets : List Nat
  maskBits : Nat
deriving DecidableEq

/-- The fields of `netlink.Route` the engine sets; unset fields keep
the Go zero value (`nil` destination and gateway, index 0, type 0). -/
structure Route where
  dst : Option IPNet := none
  gw : Option IP := none
  linkIndex : Int := 0
  rtype : Nat := 0
deriving DecidableEq

/-- One collaborator call performed by a closure, in the order the Go
code issues them: netlink link/address/route operations, an external
command execution, a file read, and process lookup/kill. -/
inductive EngineCall where
  | linkByName (device : String)
  | linkSetName (link : Link) (newName : String)
  | addrAdd (link : Link) (addr : Addr)
  | linkSetUp (link : Link)
  | routeAdd (route : Route)
  | command (executable : String) (args : List String)
  | linkList
  | readFile (path : String)
  | findProcess (pid : Int)
  | kill (process : Proc)
deriving DecidableEq

/-- Decimal digits to a natural number, most significant first. -/
def digitsVal (cs : List Char) : Nat :=
  cs.foldl (fun n c => n * 10 + (c.toNat - 48)) 0

/-- Go stdlib model: `strings.TrimSpace` (ASCII whitespace suffices
for the pid-file contents this engine reads). -/
def goTrimSpace (s : String) : String :=
  String.mk (((s.toList.dropWhile goIsSpace).reverse.dropWhile goIsSpace).reverse)
where
  goIsSpace (c : Char) : Bool :=
    c == ' ' || c == '\t' || c == '\n' || c == '\r' || c == '\x0b' || c == '\x0c'

/-- Go stdlib model: `strconv.Atoi`. An optional sign followed by one
or more ASCII digits parses; anything else is a syntax error (the
int64 range check is omitted: no claim depends on overflow). -/
def goAtoi (s : String) : Except GoError Int :=
  let signed : Int × List Char :=
    match s.toList with
    | '+' :: rest => (1, rest)
    | '-' :: rest => (-1, rest)
    | cs => (1, cs)
  if signed.2 ≠ [] ∧ signed.2.all Char.isDigit then
    .ok (signed.1 * (digitsVal signed.2 : Int))
  else
    .error (.msg ("strconv.Atoi: parsing " ++ s ++ ": invalid syntax"))

/-- Split a character list at every occurrence of `sep` (the
behaviour of Go `strings.Split` on the separators used here). -/
def splitOnChar (sep : Char) : List Char → List (List Char)
  | [] => [[]]
  | c :: rest =>
    match splitOnChar sep rest with
    | [] => [[c]]
    | h :: t => if c == sep then [] :: h :: t else (c :: h) :: t

/-- Go stdlib model: one dotted-decimal octet as `net.ParseCIDR`
accepts it — digits only, no leading zero, value at most 255. -/
def parseIPv4Octet (cs : List Char) : Option Nat :=
  if cs ≠ [] ∧ cs.all Char.isDigit ∧ (cs.length = 1 ∨ cs.head? ≠ some '0') ∧
      digitsVal cs ≤ 255 then
    some (digitsVal cs)
  else
    none

/-- Go stdlib model: `net.ParseCIDR` restricted to the IPv4
dotted-quad form, which is the only shape the engine ever parses (the
fixed constant `169.254.169.254/32`). -/
def parseCIDR (s : String) : Except GoError IPNet :=
  match splitOnChar '/' s.toList with
  | [ipPart, maskPart] =>
    match splitOnChar '.' ipPart with
    | [a, b, c, d] =>
      match parseIPv4Octet a, parseIPv4Octet b, parseIPv4Octet c, parseIPv4Octet d,
          parseIPv4Octet maskPart with
      | some oa, some ob, some oc, some od, some m =>
        if m ≤ 32 then .ok ⟨[oa, ob, oc, od], m⟩
        else .error (.msg ("invalid CIDR address: " ++ s))
      | _, _, _, _, _ => .error (.msg ("invalid CIDR address: " ++ s))
    | _ => .error (.msg ("invalid CIDR address: " ++ s))
  | _ => .error (.msg ("invalid CIDR address: " ++ s))

/-- `instanceMetadataEndpoint` of nsclosure.go. -/
def instanceMetadataEndpoint : String := "169.254.169.254/32"

/-- `linkWithMACNotFoundError`, the shared device-not-found sentinel
(identical in both engine source files). -/
def linkWithMACNotFoundError : GoError :=
  .msg "engine: device with mac address not found"

/-- `isRouteExistsError` of nsclosure.go: true exactly when the error
value is itself a `syscall.Errno` equal to `syscall.EEXIST` (the Go
type assertion `err.(syscall.Errno)` fails on every other
representation, wrapped errors included). -/
def isRouteExistsError : GoError → Bool
  | .errno code => code == EEXIST
  | _ => false

/-- The netlink collaborator as the static-address closure sees it:
one response function per primitive the closure calls. -/
structure NetLinkEnv where
  linkByName : String → Except GoError Link
  linkSetName : Link → String → Except GoError Unit
  addrAdd : Link → Addr → Except GoError Unit
  linkSetUp : Link → Except GoError Unit
  routeAdd : Route → Except GoError Unit

/-- `setupNamespaceClosureContext` of nsclosure.go (the `netLink`
field is passed to `run` explicitly as the environment). -/
structure setupNamespaceClosureContext where
  ifName : String
  deviceName : String
  macAddress : String
  ipv4Addr : Addr
  ipv6Addr : Option Addr
  ipv4Gateway : IP
  ipv6Gateway : Option IP
  blockIMDS : Bool
deriving DecidableEq

/-- `teardownNamespaceClosureContext` of nsclosure.go. -/
structure teardownNamespaceClosureContext where
  hardwareAddr : String
deriving DecidableEq

/-- `newSetupNamespaceClosureContext` of nsclosure.go. `parseAddr`
stands for `netLink.ParseAddr` and `parseIP` for `net.ParseIP`
(returning `none` where Go returns `nil`); the constructor performs no
other collaborator call, which the return type makes evident. -/
def newSetupNamespaceClosureContext
    (parseAddr : String → Except GoError Addr) (parseIP : String → Option IP)
    (ifName deviceName macAddress ipv4Address ipv6Address ipv4Gateway ipv6Gateway : String)
    (blockIMDS : Bool) : Except GoError setupNamespaceClosureContext :=
  match parseAddr ipv4Address with
  | .error err => .error (.wrapped
      "setupNamespaceClosure engine: unable to parse ipv4 address for the interface" err)
  | .ok nlIPV4Addr =>
    match parseIP ipv4Gateway with
    | none => .error (.msg
        "setupNamespaceClosure engine: unable to parse address of the ipv4 gateway")
    | some ipv4GatewayIP =>
      if ipv6Address ≠ "" then
        match parseAddr ipv6Address with
        | .error err => .error (.wrapped
            "setupNamespaceClosure engine: unable to parse ipv6 address for the interface" err)
        | .ok nlIPV6Addr =>
          match parseIP ipv6Gateway with
          | none => .error (.msg
              "setupNamespaceClosure engine: unable to parse address of the ipv6 gateway")
          | some ipv6GatewayIP =>
            .ok { ifName := ifName, deviceName := deviceName, macAddress := macAddress,
                  ipv4Addr := nlIPV4Addr, ipv6Addr := some nlIPV6Addr,
                  ipv4Gateway := ipv4GatewayIP, ipv6Gateway := some ipv6GatewayIP,
                  blockIMDS := blockIMDS }
      else
        .ok { ifName := ifName, deviceName := deviceName, macAddress := macAddress,
              ipv4Addr := nlIPV4Addr, ipv6Addr := none,
              ipv4Gateway := ipv4GatewayIP, ipv6Gateway := none,
              blockIMDS := blockIMDS }

/-- The route literal `netlink.Route{Gw: ipv4Gateway}` of the static
setup closure, step 7. -/
def ipv4GatewayRoute (closureContext : setupNamespaceClosureContext) : Route :=
  { gw := some closureContext.ipv4Gateway }

/-- The route literal `netlink.Route{LinkIndex: ..., Gw: ipv6Gateway}`
of the static setup closure, step 8. -/
def ipv6GatewayRoute (eniLink : Link) (closureContext : setupNamespaceClosureContext) : Route :=
  { linkIndex := eniLink.attrs.index, gw := closureContext.ipv6Gateway }

/-- The blackhole route literal `netlink.Route{Dst: imdsNetwork, Type:
RTN_BLACKHOLE}` of the static setup closure, step 6. -/
def imdsBlackholeRoute (imdsNetwork : IPNet) : Route :=
  { dst := some imdsNetwork, rtype := RTN_BLACKHOLE }

/-- `(*setupNamespaceClosureContext).run` of nsclosure.go, returning
both its Go result and the ordered list of collaborator calls it
performed. -/
def setupNamespaceClosureContext.run (netLink : NetLinkEnv)
    (closureContext : setupNamespaceClosureContext) :
    Except GoError Unit × List EngineCall :=
  let t1 := [EngineCall.linkByName closureContext.deviceName]
  match netLink.linkByName closureContext.deviceName with
  | .error err => (.error (.wrapped
      ("setupNamespaceClosure engine: unable to get link for device " ++
        closureContext.deviceName) err), t1)
  | .ok eniLink =>
  let t2 := t1 ++ [EngineCall.linkSetName eniLink closureContext.ifName]
  match netLink.linkSetName eniLink closureContext.ifName with
  | .error err => (.error (.wrapped
      "setupNamespaceClosure engine: unable to change interface name" err), t2)
  | .ok _ =>
  let t3 := t2 ++ [EngineCall.addrAdd eniLink closureContext.ipv4Addr]
  match netLink.addrAdd eniLink closureContext.ipv4Addr with
  | .error err => (.error (.wrapped
      "setupNamespaceClosure engine: unable to add ipv4 address to the interface" err), t3)
  | .ok _ =>
  -- the remaining steps, shared by the two branches on ipv6Addr below
  let fromLinkUp : List EngineCall → Except GoError Unit × List EngineCall := fun t4 =>
    let t5 := t4 ++ [EngineCall.linkSetUp eniLink]
    match netLink.linkSetUp eniLink with
    | .error err => (.error (.wrapped
        "setupNamespaceClosure engine: unable to bring up the device" err), t5)
    | .ok _ =>
    -- steps 7 and 8, shared by the two branches on blockIMDS below
    let gatewayRoutes : List EngineCall → Except GoError Unit × List EngineCall := fun t6 =>
      let t7 := t6 ++ [EngineCall.routeAdd (ipv4GatewayRoute closureContext)]
      match netLink.routeAdd (ipv4GatewayRoute closureContext) with
      | .error err => (.error (.wrapped
          "setupNamespaceClosure engine: unable to add the route for the ipv4 gateway" err), t7)
      | .ok _ =>
        match closureContext.ipv6Addr with
        | none => (.ok (), t7)
        | some _ =>
          let t8 := t7 ++ [EngineCall.routeAdd (ipv6GatewayRoute eniLink closureContext)]
          match netLink.routeAdd (ipv6GatewayRoute eniLink closureContext) with
          | .ok _ => (.ok (), t8)
          | .error err =>
            if ¬ isRouteExistsError err then
              (.error (.wrapped
                "setupNamespaceClosure engine: unable to add the route for the ipv6 gateway" err), t8)
            else
              (.ok (), t8)
    if closureContext.blockIMDS then
      match parseCIDR instanceMetadataEndpoint with
      | .error err => (.error (.wrapped
          "setupNamespaceClosure engine: unable to parse instance metadata endpoint" err), t5)
      | .ok imdsNetwork =>
        let t6 := t5 ++ [EngineCall.routeAdd (imdsBlackholeRoute imdsNetwork)]
        match netLink.routeAdd (imdsBlackholeRoute imdsNetwork) with
        | .error err => (.error (.wrapped
            "setupNamespaceClosure engine: unable to add route to block instance metadata" err), t6)
        | .ok _ => gatewayRoutes t6
    else
      gatewayRoutes t5
  match closureContext.ipv6Addr with
  | none => fromLinkUp t3
  | some nlIPV6Addr =>
    let t4 := t3 ++ [EngineCall.addrAdd eniLink nlIPV6Addr]
    match netLink.addrAdd eniLink nlIPV6Addr with
    | .error err => (.error (.wrapped
        "setupNamespaceClosure engine: unable to add ipv6 address to the interface" err), t4)
    | .ok _ => fromLinkUp t4

/-- `(*teardownNamespaceClosureContext).run` of nsclosure.go: the body
is `return nil` — no collaborator call, unconditional success. -/
def teardownNamespaceClosureContext.run (_ : teardownNamespaceClosureContext) :
    Except GoError Unit × List EngineCall :=
  (.ok (), [])

/-! ## The DHCP-leased variant (the unnamed engine source file) -/

/-- `dhclientExecutableName`. -/
def dhclientExecutableName : String := "dhclient"

/-- `dhclientV4LeaseFilePathPrefix`. -/
def dhclientV4LeaseFilePathPrefix : String := "/var/lib/dhclient/ns-dhclient4"

/-- `dhclientV4LeasePIDFilePathPrefix`. -/
def dhclientV4LeasePIDFilePathPrefix : String := "/var/run/ns-dhclient4"

/-- `dhclientV6LeaseFilePathPrefix`. -/
def dhclientV6LeaseFilePathPrefix : String := "/var/lib/dhclient/ns-dhclient6"

/-- `dhclientV6LeasePIDFilePathPrefix`. -/
def dhclientV6LeasePIDFilePathPrefix : String := "/var/run/ns-dhclient6"

/-- `constructDHClientLeasePIDFilePathIPV4`. -/
def constructDHClientLeasePIDFilePathIPV4 (deviceName : String) : String :=
  dhclientV4LeasePIDFilePathPrefix ++ "-" ++ deviceName ++ ".pid"

/-- `constructDHClientV4Args`. -/
def constructDHClientV4Args (deviceName : String) : List String :=
  ["-q",
   "-lf", dhclientV4LeaseFilePathPrefix ++ "-" ++ deviceName ++ ".leases",
   "-pf", constructDHClientLeasePIDFilePathIPV4 deviceName,
   deviceName]

/-- `constructDHClientLeasePIDFilePathIPV6`. -/
def constructDHClientLeasePIDFilePathIPV6 (deviceName : String) : String :=
  dhclientV6LeasePIDFilePathPrefix ++ "-" ++ deviceName ++ ".pid"

/-- `constructDHClientV6Args`. -/
def constructDHClientV6Args (deviceName : String) : List String :=
  ["-q",
   "-6",
   "-lf", dhclientV6LeaseFilePathPrefix ++ "-" ++ deviceName ++ ".leases",
   "-pf", constructDHClientLeasePIDFilePathIPV6 deviceName,
   deviceName]

/-- The collaborators of the DHCP-leased setup closure: the netlink
primitives it calls, and `exec.Command(name, args...).CombinedOutput()`
modelled as the combined output plus `none` for a nil error. -/
structure DhcpSetupEnv where
  linkByName : String → Except GoError Link
  addrAdd : Link → Addr → Except GoError Unit
  linkSetUp : Link → Except GoError Unit
  combinedOutput : String → List String → String × Option GoError

/-- `setupNamespaceClosure` of the unnamed engine file (the `netLink`
and `exec` fields are passed to `run` explicitly as the environment). -/
structure setupNamespaceClosure where
  deviceName : String
  ipv4Addr : Addr
  ipv6Addr : Option Addr
deriving DecidableEq

/-- `newSetupNamespaceClosure` of the unnamed engine file; `parseAddr`
stands for `netLink.ParseAddr`. -/
def newSetupNamespaceClosure (parseAddr : String → Except GoError Addr)
    (deviceName ipv4Address ipv6Address : String) :
    Except GoError setupNamespaceClosure :=
  match parseAddr ipv4Address with
  | .error err => .error (.wrapped
      "setupNamespaceClosure engine: unable to parse ipv4 address for the interface" err)
  | .ok nlIPV4Addr =>
    if ipv6Address ≠ "" then
      match parseAddr ipv6Address with
      | .error err => .error (.wrapped
          "setupNamespaceClosure engine: unable to parse ipv6 address for the interface" err)
      | .ok nlIPV6Addr =>
        .ok { deviceName := deviceName, ipv4Addr := nlIPV4Addr, ipv6Addr := some nlIPV6Addr }
    else
      .ok { deviceName := deviceName, ipv4Addr := nlIPV4Addr, ipv6Addr := none }

/-- `(*setupNamespaceClosure).startDHClientV4`: runs dhclient with the
IPv4 argument list; on a non-nil error the wrapped message carries the
command and its captured combined output. -/
def setupNamespaceClosure.startDHClientV4 (env : DhcpSetupEnv)
    (closure : setupNamespaceClosure) : Except GoError Unit × List EngineCall :=
  let args := constructDHClientV4Args closure.deviceName
  let t := [EngineCall.command dhclientExecutableName args]
  match env.combinedOutput dhclientExecutableName args with
  | (out, some err) => (.error (.wrapped
      ("setupNamespaceClosure engine: unable to start dhclient for ipv4 address; command: " ++
        dhclientExecutableName ++ " [" ++ String.intercalate " " args ++ "]; output: " ++ out)
      err), t)
  | (_, none) => (.ok (), t)

/-- `(*setupNamespaceClosure).startDHClientV6`: as the IPv4 variant,
with the IPv6 argument list. -/
def setupNamespaceClosure.startDHClientV6 (env : DhcpSetupEnv)
    (closure : setupNamespaceClosure) : Except GoError Unit × List EngineCall :=
  let args := constructDHClientV6Args closure.deviceName
  let t := [EngineCall.command dhclientExecutableName args]
  match env.combinedOutput dhclientExecutableName args with
  | (out, some err) => (.error (.wrapped
      ("setupNamespaceClosure engine: unable to start dhclient for ipv6 address; command: " ++
        dhclientExecutableName ++ " [" ++ String.intercalate " " args ++ "]; output: " ++ out)
      err), t)
  | (_, none) => (.ok (), t)

/-- `(*setupNamespaceClosure).run` of the unnamed engine file,
returning its Go result and the ordered collaborator calls. -/
def setupNamespaceClosure.run (env : DhcpSetupEnv) (closure : setupNamespaceClosure) :
    Except GoError Unit × List EngineCall :=
  let t1 := [EngineCall.linkByName closure.deviceName]
  match env.linkByName closure.deviceName with
  | .error err => (.error (.wrapped
      ("setupNamespaceClosure engine: unable to get link for device " ++ closure.deviceName)
      err), t1)
  | .ok eniLink =>
  let t2 := t1 ++ [EngineCall.addrAdd eniLink closure.ipv4Addr]
  match env.addrAdd eniLink closure.ipv4Addr with
  | .error err => (.error (.wrapped
      "setupNamespaceClosure engine: unable to add ipv4 address to the interface" err), t2)
  | .ok _ =>
  -- the remaining steps, shared by the two branches on ipv6Addr below
  let fromLinkUp : List EngineCall → Except GoError Unit × List EngineCall := fun t3 =>
    let t4 := t3 ++ [EngineCall.linkSetUp eniLink]
    match env.linkSetUp eniLink with
    | .error err => (.error (.wrapped
        "setupNamespaceClosure engine: unable to bring up the device" err), t4)
    | .ok _ =>
      match setupNamespaceClosure.startDHClientV4 env closure with
      | (.error err, tc4) => (.error err, t4 ++ tc4)
      | (.ok _, tc4) =>
        match closure.ipv6Addr with
        | none => (.ok (), t4 ++ tc4)
        | some _ =>
          match setupNamespaceClosure.startDHClientV6 env closure with
          | (.error err, tc6) => (.error err, t4 ++ tc4 ++ tc6)
          | (.ok _, tc6) => (.ok (), t4 ++ tc4 ++ tc6)
  match closure.ipv6Addr with
  | none => fromLinkUp t2
  | some nlIPV6Addr =>
    let t3 := t2 ++ [EngineCall.addrAdd eniLink nlIPV6Addr]
    match env.addrAdd eniLink nlIPV6Addr with
    | .error err => (.error (.wrapped
        "setupNamespaceClosure engine: unable to add ipv6 address to the interface" err), t3)
    | .ok _ => fromLinkUp t3

/-- The collaborators of the DHCP-leased teardown closure: the netlink
link enumeration, `ioutil.ReadFile`, `os.FindProcess` and
`(*os.Process).Kill` (returning `none` for a nil error). -/
structure TeardownEnv where
  linkList : Except GoError (List Link)
  readFile : String → Except GoError String
  findProcess : Int → Except GoError Proc
  kill : Proc → Option GoError

/-- `teardownNamespaceClosure` of the unnamed engine file (the
`netLink`, `ioutil` and `os` fields are passed to `run` explicitly as
the environment). -/
structure teardownNamespaceClosure where
  hardwareAddr : String
  stopDHClient6 : Bool
deriving DecidableEq

/-- `getLinkByHardwareAddress` (identical in both engine source
files): the result of `netLink.LinkList()` is passed in, and the Go
loop returning the first link whose `HardwareAddr.String()` equals the
target's string form is `List.find?` on that list. -/
def getLinkByHardwareAddress (linkList : Except GoError (List Link))
    (hardwareAddr : String) : Except GoError Link :=
  match linkList with
  | .error err => .error err
  | .ok links =>
    match links.find? (fun link => link.attrs.hardwareAddr == hardwareAddr) with
    | some link => .ok link
    | none => .error linkWithMACNotFoundError

/-- `(*teardownNamespaceClosure).stopDHClient`: read the pid file,
parse the trimmed integer, obtain the process handle, kill it; each
stage failure wraps the cause with a stage-identifying note. -/
def teardownNamespaceClosure.stopDHClient (env : TeardownEnv) (pidFilePath : String) :
    Except GoError Unit × List EngineCall :=
  let t1 := [EngineCall.readFile pidFilePath]
  match env.readFile pidFilePath with
  | .error err => (.error (.wrapped
      ("teardownNamespaceClosure engine: error reading dhclient pid from " ++ pidFilePath)
      err), t1)
  | .ok contents =>
    match goAtoi (goTrimSpace contents) with
    | .error err => (.error (.wrapped
        ("teardownNamespaceClosure engine: error parsing dhclient pid from " ++ pidFilePath)
        err), t1)
    | .ok pid =>
      let t2 := t1 ++ [EngineCall.findProcess pid]
      match env.findProcess pid with
      | .error err => (.error (.wrapped
          ("teardownNamespaceClosure engine: error getting process handle for dhclient, pid file: " ++
            pidFilePath) err), t2)
      | .ok process =>
        let t3 := t2 ++ [EngineCall.kill process]
        match env.kill process with
        | some err => (.error (.wrapped
            ("teardownNamespaceClosure engine: error stopping the dhclient process, pid file: " ++
              pidFilePath) err), t3)
        | none => (.ok (), t3)

/-- `(*teardownNamespaceClosure).run` of the unnamed engine file:
resolve the device by hardware address, stop the IPv4 dhclient via its
pid file, and only when `stopDHClient6` is set (and the IPv4 stop
succeeded) stop the IPv6 dhclient via its pid file. -/
def teardownNamespaceClosure.run (env : TeardownEnv) (closure : teardownNamespaceClosure) :
    Except GoError Unit × List EngineCall :=
  let t1 := [EngineCall.linkList]
  match getLinkByHardwareAddress env.linkList closure.hardwareAddr with
  | .error err => (.error (.wrapped
      ("teardownNamespaceClosure engine: unable to get device with hardware address " ++
        closure.hardwareAddr) err), t1)
  | .ok link =>
    let deviceName := link.attrs.name
    match teardownNamespaceClosure.stopDHClient env
        (constructDHClientLeasePIDFilePathIPV4 deviceName) with
    | (.error err, t4) => (.error err, t1 ++ t4)
    | (.ok _, t4) =>
      if closure.stopDHClient6 then
        match teardownNamespaceClosure.stopDHClient env
            (constructDHClientLeasePIDFilePathIPV6 deviceName) with
        | (.error err, t6) => (.error err, t1 ++ t4 ++ t6)
        | (.ok _, t6) => (.ok (), t1 ++ t4 ++ t6)
      else
        (.ok (), t1 ++ t4)

/-! ## Helper facts -/

/-- The parse of the fixed constant `169.254.169.254/32`. -/
def imdsNet : IPNet := ⟨[169, 254, 169, 254], 32⟩

lemma parseCIDR_imds : parseCIDR instanceMetadataEndpoint = .ok imdsNet := by decide

lemma startDHClientV4_trace (env : DhcpSetupEnv) (closure : setupNamespaceClosure) :
    (setupNamespaceClosure.startDHClientV4 env closure).2 =
      [EngineCall.command dhclientExecutableName (constructDHClientV4Args closure.deviceName)] := by
  rcases h : env.combinedOutput dhclientExecutableName (constructDHClientV4Args closure.deviceName)
    with ⟨out, err⟩
  cases err <;> simp [setupNamespaceClosure.startDHClientV4, h]

lemma startDHClientV6_trace (env : DhcpSetupEnv) (closure : setupNamespaceClosure) :
    (setupNamespaceClosure.startDHClientV6 env closure).2 =
      [EngineCall.command dhclientExecutableName (constructDHClientV6Args closure.deviceName)] := by
  rcases h : env.combinedOutput dhclientExecutableName (constructDHClientV6Args closure.deviceName)
    with ⟨out, err⟩
  cases err <;> simp [setupNamespaceClosure.startDHClientV6, h]

/-- Every collaborator call the DHCP-leased setup run can perform, by
exhaustive case analysis over the environment's responses. -/
lemma dhcp_run_calls (env : DhcpSetupEnv) (closure : setupNamespaceClosure) :
    ∀ call ∈ (setupNamespaceClosure.run env closure).2,
      call = .linkByName closure.deviceName ∨
      (∃ link, call = .addrAdd link closure.ipv4Addr) ∨
      (∃ link a6, closure.ipv6Addr = some a6 ∧ call = .addrAdd link a6) ∨
      (∃ link, call = .linkSetUp link) ∨
      call = .command dhclientExecutableName (constructDHClientV4Args closure.deviceName) ∨
      (closure.ipv6Addr ≠ none ∧
        call = .command dhclientExecutableName (constructDHClientV6Args closure.deviceName)) := by
  intro call hmem
  rcases hL : env.linkByName closure.deviceName with eL | link
  · simp [setupNamespaceClosure.run, hL] at hmem
    simp [hmem]
  · rcases h4 : env.addrAdd link closure.ipv4Addr with e4 | u4
    · simp [setupNamespaceClosure.run, hL, h4] at hmem
      rcases hmem with rfl | rfl <;> simp
    · rcases hc4 : setupNamespaceClosure.startDHClientV4 env closure with ⟨r4, t4⟩
      rcases hc6 : setupNamespaceClosure.startDHClientV6 env closure with ⟨r6, t6⟩
      have ht4 : t4 = [EngineCall.command dhclientExecutableName
          (constructDHClientV4Args closure.deviceName)] := by
        simpa [hc4] using startDHClientV4_trace env closure
      have ht6 : t6 = [EngineCall.command dhclientExecutableName
          (constructDHClientV6Args closure.deviceName)] := by
        simpa [hc6] using startDHClientV6_trace env closure
      subst ht4 ht6
      rcases h6c : closure.ipv6Addr with _ | a6
      · rcases hU : env.linkSetUp link with eU | uU
        · simp [setupNamespaceClosure.run, hL, h4, h6c, hU] at hmem
          rcases hmem with rfl | rfl | rfl <;> simp
        · cases r4 <;>
            simp [setupNamespaceClosure.run, hL, h4, h6c, hU, hc4] at hmem <;>
            rcases hmem with rfl | rfl | rfl | rfl <;> simp
      · rcases h6 : env.addrAdd link a6 with e6 | u6
        · simp [setupNamespaceClosure.run, hL, h4, h6c, h6] at hmem
          rcases hmem with rfl | rfl | rfl <;> simp [h6c]
        · rcases hU : env.linkSetUp link with eU | uU
          · simp [setupNamespaceClosure.run, hL, h4, h6c, h6, hU] at hmem
            rcases hmem with rfl | rfl | rfl | rfl <;> simp [h6c]
          · cases r4
            · simp [setupNamespaceClosure.run, hL, h4, h6c, h6, hU, hc4] at hmem
              rcases hmem with rfl | rfl | rfl | rfl | rfl <;> simp [h6c]
            · cases r6 <;>
                simp [setupNamespaceClosure.run, hL, h4, h6c, h6, hU, hc4, hc6] at hmem <;>
                rcases hmem with rfl | rfl | rfl | rfl | rfl | rfl <;> simp [h6c]

/-- Every collaborator call the static-address setup run can perform,
by exhaustive case analysis over the environment's responses. -/
lemma static_run_calls (netLink : NetLinkEnv) (c : setupNamespaceClosureContext) :
    ∀ call ∈ (setupNamespaceClosureContext.run netLink c).2,
      call = .linkByName c.deviceName ∨
      (∃ link, call = .linkSetName link c.ifName) ∨
      (∃ link, call = .addrAdd link c.ipv4Addr) ∨
      (∃ link a6, c.ipv6Addr = some a6 ∧ call = .addrAdd link a6) ∨
      (∃ link, call = .linkSetUp link) ∨
      (c.blockIMDS = true ∧ call = .routeAdd (imdsBlackholeRoute imdsNet)) ∨
      call = .routeAdd (ipv4GatewayRoute c) ∨
      (∃ link, c.ipv6Addr ≠ none ∧ call = .routeAdd (ipv6GatewayRoute link c)) := by
  intro call hmem
  rcases hL : netLink.linkByName c.deviceName with eL | link
  · simp [setupNamespaceClosureContext.run, hL] at hmem
    simp [hmem]
  · rcases hN : netLink.linkSetName link c.ifName with eN | uN
    · simp [setupNamespaceClosureContext.run, hL, hN] at hmem
      rcases hmem with rfl | rfl <;> simp
    · rcases h4 : netLink.addrAdd link c.ipv4Addr with e4 | u4
      · simp [setupNamespaceClosureContext.run, hL, hN, h4] at hmem
        rcases hmem with rfl | rfl | rfl <;> simp
      · rcases h6c : c.ipv6Addr with _ | a6
        · rcases hU : netLink.linkSetUp link with eU | uU
          · simp [setupNamespaceClosureContext.run, hL, hN, h4, h6c, hU] at hmem
            rcases hmem with rfl | rfl | rfl | rfl <;> simp
          · cases hB : c.blockIMDS
            · rcases hR4 : netLink.routeAdd (ipv4GatewayRoute c) with eR | uR <;>
                simp [setupNamespaceClosureContext.run, hL, hN, h4, h6c, hU, hB, hR4] at hmem <;>
                rcases hmem with rfl | rfl | rfl | rfl | rfl <;> simp
            · rcases hRB : netLink.routeAdd (imdsBlackholeRoute imdsNet) with eB | uB
              · simp [setupNamespaceClosureContext.run, hL, hN, h4, h6c, hU, hB,
                  parseCIDR_imds, hRB] at hmem
                rcases hmem with rfl | rfl | rfl | rfl | rfl <;> simp [hB]
              · rcases hR4 : netLink.routeAdd (ipv4GatewayRoute c) with eR | uR <;>
                  simp [setupNamespaceClosureContext.run, hL, hN, h4, h6c, hU, hB,
                    parseCIDR_imds, hRB, hR4] at hmem <;>
                  rcases hmem with rfl | rfl | rfl | rfl | rfl | rfl <;> simp [hB]
        · rcases h6 : netLink.addrAdd link a6 with e6 | u6
          · simp [setupNamespaceClosureContext.run, hL, hN, h4, h6c, h6] at hmem
            rcases hmem with rfl | rfl | rfl | rfl <;> simp [h6c]
          · rcases hU : netLink.linkSetUp link with eU | uU
            · simp [setupNamespaceClosureContext.run, hL, hN, h4, h6c, h6, hU] at hmem
              rcases hmem with rfl | rfl | rfl | rfl | rfl <;> simp [h6c]
            · cases hB : c.blockIMDS
              · rcases hR4 : netLink.routeAdd (ipv4GatewayRoute c) with eR | uR
                · simp [setupNamespaceClosureContext.run, hL, hN, h4, h6c, h6, hU, hB, hR4] at hmem
                  rcases hmem with rfl | rfl | rfl | rfl | rfl | rfl <;> simp [h6c]
                · rcases hR6 : netLink.routeAdd (ipv6GatewayRoute link c) with eR6 | uR6
                  · cases hIR : isRouteExistsError eR6 <;>
                      simp [setupNamespaceClosureContext.run, hL, hN, h4, h6c, h6, hU, hB,
                        hR4, hR6, hIR] at hmem <;>
                      rcases hmem with rfl | rfl | rfl | rfl | rfl | rfl | rfl <;>
                      first
                        | exact Or.inr (Or.inr (Or.inr (Or.inr (Or.inr (Or.inr
                            (Or.inr ⟨link, by simp [h6c], rfl⟩))))))
                        | simp [h6c]
                  · simp [setupNamespaceClosureContext.run, hL, hN, h4, h6c, h6, hU, hB,
                      hR4, hR6] at hmem
                    rcases hmem with rfl | rfl | rfl | rfl | rfl | rfl | rfl <;>
                    first
                      | exact Or.inr (Or.inr (Or.inr (Or.inr (Or.inr (Or.inr
                          (Or.inr ⟨link, by simp [h6c], rfl⟩))))))
                      | simp [h6c]
              · rcases hRB : netLink.routeAdd (imdsBlackholeRoute imdsNet) with eB | uB
                · simp [setupNamespaceClosureContext.run, hL, hN, h4, h6c, h6, hU, hB,
                    parseCIDR_imds, hRB] at hmem
                  rcases hmem with rfl | rfl | rfl | rfl | rfl | rfl <;> simp [h6c, hB]
                · rcases hR4 : netLink.routeAdd (ipv4GatewayRoute c) with eR | uR
                  · simp [setupNamespaceClosureContext.run, hL, hN, h4, h6c, h6, hU, hB,
                      parseCIDR_imds, hRB, hR4] at hmem
                    rcases hmem with rfl | rfl | rfl | rfl | rfl | rfl | rfl <;> simp [h6c, hB]
                  · rcases hR6 : netLink.routeAdd (ipv6GatewayRoute link c) with eR6 | uR6
                    · cases hIR : isRouteExistsError eR6 <;>
                        simp [setupNamespaceClosureContext.run, hL, hN, h4, h6c, h6, hU, hB,
                          parseCIDR_imds, hRB, hR4, hR6, hIR] at hmem <;>
                        rcases hmem with rfl | rfl | rfl | rfl | rfl | rfl | rfl | rfl <;>
                        first
                          | exact Or.inr (Or.inr (Or.inr (Or.inr (Or.inr (Or.inr
                              (Or.inr ⟨link, by simp [h6c], rfl⟩))))))
                          | simp [h6c, hB]
                    · simp [setupNamespaceClosureContext.run, hL, hN, h4, h6c, h6, hU, hB,
                        parseCIDR_imds, hRB, hR4, hR6] at hmem
                      rcases hmem with rfl | rfl | rfl | rfl | rfl | rfl | rfl | rfl <;>
                      first
                        | exact Or.inr (Or.inr (Or.inr (Or.inr (Or.inr (Or.inr
                            (Or.inr ⟨link, by simp [h6c], rfl⟩))))))
                        | simp [h6c, hB]

lemma static_no_ipv6_addrAdd (netLink : NetLinkEnv) (c : setupNamespaceClosureContext)
    (h6 : c.ipv6Addr = none) :
    ∀ link a, EngineCall.addrAdd link a ∈ (setupNamespaceClosureContext.run netLink c).2 →
      a = c.ipv4Addr := by
  intro link a hmem
  rcases static_run_calls netLink c _ hmem with
    h | ⟨l, h⟩ | ⟨l, h⟩ | ⟨l, a6, h6c, h⟩ | ⟨l, h⟩ | ⟨hb, h⟩ | h | ⟨l, hne, h⟩ <;>
    simp_all

lemma static_no_ipv6_route (netLink : NetLinkEnv) (c : setupNamespaceClosureContext)
    (h6 : c.ipv6Addr = none) :
    ∀ r, EngineCall.routeAdd r ∈ (setupNamespaceClosureContext.run netLink c).2 →
      r = ipv4GatewayRoute c ∨ (c.blockIMDS = true ∧ r = imdsBlackholeRoute imdsNet) := by
  intro r hmem
  rcases static_run_calls netLink c _ hmem with
    h | ⟨l, h⟩ | ⟨l, h⟩ | ⟨l, a6, h6c, h⟩ | ⟨l, h⟩ | ⟨hb, h⟩ | h | ⟨l, hne, h⟩ <;>
    simp_all

lemma dhcp_no_ipv6_addrAdd (env : DhcpSetupEnv) (closure : setupNamespaceClosure)
    (h6 : closure.ipv6Addr = none) :
    ∀ link a, EngineCall.addrAdd link a ∈ (setupNamespaceClosure.run env closure).2 →
      a = closure.ipv4Addr := by
  intro link a hmem
  rcases dhcp_run_calls env closure _ hmem with
    h | ⟨l, h⟩ | ⟨l, a6, h6c, h⟩ | ⟨l, h⟩ | h | ⟨hne, h⟩ <;>
    simp_all

lemma dhcp_no_ipv6_command (env : DhcpSetupEnv) (closure : setupNamespaceClosure)
    (h6 : closure.ipv6Addr = none) :
    ∀ exe args, EngineCall.command exe args ∈ (setupNamespaceClosure.run env closure).2 →
      args = constructDHClientV4Args closure.deviceName := by
  intro exe args hmem
  rcases dhcp_run_calls env closure _ hmem with
    h | ⟨l, h⟩ | ⟨l, a6, h6c, h⟩ | ⟨l, h⟩ | h | ⟨hne, h⟩ <;>
    simp_all

/-! ## Claims -/

/-- C8: the static-address variant's teardown closure run returns nil
for every input and every external state, performing no device, file,
or process operation (its call trace is empty and it consults no
collaborator at all). -/
theorem static_teardown_noop (closureContext : teardownNamespaceClosureContext) :
    teardownNamespaceClosureContext.run closureContext = (.ok (), []) :=
  rfl

/-- C9: isRouteExistsError is true exactly on a bare syscall.Errno
equal to EEXIST; a message error or an EEXIST wrapped in another error
yields false, and consequently an IPv6 default-route add that fails
with a wrapped EEXIST is not tolerated — the static setup run fails. -/
theorem isRouteExistsError_only_bare_errno :
    (∀ e : GoError, isRouteExistsError e = true ↔ e = .errno EEXIST) ∧
    (∀ note cause, isRouteExistsError (.wrapped note cause) = false) ∧
    (∀ s, isRouteExistsError (.msg s) = false) ∧
    (∀ (netLink : NetLinkEnv) (c : setupNamespaceClosureContext) (link : Link)
        (a6 : Addr) (note : String),
      c.ipv6Addr = some a6 →
      c.blockIMDS = false →
      netLink.linkByName c.deviceName = .ok link →
      netLink.linkSetName link c.ifName = .ok () →
      netLink.addrAdd link c.ipv4Addr = .ok () →
      netLink.addrAdd link a6 = .ok () →
      netLink.linkSetUp link = .ok () →
      netLink.routeAdd (ipv4GatewayRoute c) = .ok () →
      netLink.routeAdd (ipv6GatewayRoute link c) = .error (.wrapped note (.errno EEXIST)) →
      (setupNamespaceClosureContext.run netLink c).1 =
        .error (.wrapped
          "setupNamespaceClosure engine: unable to add the route for the ipv6 gateway"
          (.wrapped note (.errno EEXIST)))) := by
  refine ⟨?_, ?_, ?_, ?_⟩
  · intro e
    cases e with
    | errno code => simp [isRouteExistsError, EEXIST]
    | msg s => simp [isRouteExistsError]
    | wrapped note cause => simp [isRouteExistsError]
  · intro note cause
    simp [isRouteExistsError]
  · intro s
    simp [isRouteExistsError]
  · intro netLink c link a6 note h6 hB h1 h2 h3 h4 h5 h7 h8
    simp [setupNamespaceClosureContext.run, h6, hB, h1, h2, h3, h4, h5, h7, h8,
      isRouteExistsError]

/-- C6: getLinkByHardwareAddress returns the first link of the
enumeration whose hardware-address string equals the target's; when no
link matches it returns the device-not-found sentinel, and when
exactly one link matches, that link is returned even when the other
links differ only in hardware address. -/
theorem getLinkByHardwareAddress_first_match :
    (∀ (links : List Link) (hardwareAddr : String),
      (∀ link ∈ links, link.attrs.hardwareAddr ≠ hardwareAddr) →
      getLinkByHardwareAddress (.ok links) hardwareAddr = .error linkWithMACNotFoundError) ∧
    (∀ (pre post : List Link) (l : Link) (hardwareAddr : String),
      l.attrs.hardwareAddr = hardwareAddr →
      (∀ link ∈ pre, link.attrs.hardwareAddr ≠ hardwareAddr) →
      getLinkByHardwareAddress (.ok (pre ++ l :: post)) hardwareAddr = .ok l) ∧
    (∀ (links : List Link) (l : Link) (hardwareAddr : String),
      l ∈ links → l.attrs.hardwareAddr = hardwareAddr →
      (∀ other ∈ links, other.attrs.hardwareAddr = hardwareAddr → other = l) →
      getLinkByHardwareAddress (.ok links) hardwareAddr = .ok l) := by
  refine ⟨?_, ?_, ?_⟩
  · intro links hardwareAddr hnone
    have hfind : links.find? (fun link => link.attrs.hardwareAddr == hardwareAddr) = none := by
      rw [List.find?_eq_none]
      intro link hmem
      simpa using hnone link hmem
    simp [getLinkByHardwareAddress, hfind]
  · intro pre post l hardwareAddr hl hpre
    have hfind : (pre ++ l :: post).find?
        (fun link => link.attrs.hardwareAddr == hardwareAddr) = some l := by
      induction pre with
      | nil => simp [List.find?_cons, hl]
      | cons head tail ih =>
        have hhead : (head.attrs.hardwareAddr == hardwareAddr) = false := by
          simpa using hpre head (by simp)
        simp only [List.cons_append, List.find?_cons, hhead]
        exact ih fun link hmem => hpre link (by simp [hmem])
    simp [getLinkByHardwareAddress, hfind]
  · intro links l hardwareAddr hmem hl huniq
    have hfind : links.find? (fun link => link.attrs.hardwareAddr == hardwareAddr) = some l := by
      induction links with
      | nil => cases hmem
      | cons head tail ih =>
        by_cases hhead : head.attrs.hardwareAddr = hardwareAddr
        · have : head = l := huniq head (by simp) hhead
          simp [List.find?_cons, hhead, this, hl]
        · have hheadb : (head.attrs.hardwareAddr == hardwareAddr) = false := by
            simpa using hhead
          have hmem' : l ∈ tail := by
            rcases List.mem_cons.mp hmem with h | h
            · exact absurd (h ▸ hl) hhead
            · exact h
          simp only [List.find?_cons, hheadb]
          exact ih hmem' fun other ho => huniq other (by simp [ho])
    simp [getLinkByHardwareAddress, hfind]


/-- C7: for every setup context with no IPv6 address configured
(`ipv6Addr = none`, the result of an empty IPv6 address string),
neither setup variant performs any IPv6 step: the static run adds no
address other than the IPv4 one and installs no route other than the
IPv4 gateway route and (when requested) the IMDS blackhole route, and
the DHCP run adds no address other than the IPv4 one and launches
dhclient only with the IPv4 argument list. -/
theorem empty_ipv6_skips_ipv6_steps :
    (∀ (netLink : NetLinkEnv) (c : setupNamespaceClosureContext),
      c.ipv6Addr = none →
      (∀ link a, EngineCall.addrAdd link a ∈ (setupNamespaceClosureContext.run netLink c).2 →
        a = c.ipv4Addr) ∧
      (∀ r, EngineCall.routeAdd r ∈ (setupNamespaceClosureContext.run netLink c).2 →
        r = ipv4GatewayRoute c ∨ (c.blockIMDS = true ∧ r = imdsBlackholeRoute imdsNet))) ∧
    (∀ (env : DhcpSetupEnv) (closure : setupNamespaceClosure),
      closure.ipv6Addr = none →
      (∀ link a, EngineCall.addrAdd link a ∈ (setupNamespaceClosure.run env closure).2 →
        a = closure.ipv4Addr) ∧
      (∀ exe args, EngineCall.command exe args ∈ (setupNamespaceClosure.run env closure).2 →
        args = constructDHClientV4Args closure.deviceName)) := by
  refine ⟨fun netLink c h6 => ⟨?_, ?_⟩, fun env closure h6 => ⟨?_, ?_⟩⟩
  · exact static_no_ipv6_addrAdd netLink c h6
  · exact static_no_ipv6_route netLink c h6
  · exact dhcp_no_ipv6_addrAdd env closure h6
  · exact dhcp_no_ipv6_command env closure h6

/-- C4: the DHCP-variant setup invokes dhclient with exactly the
documented argument lists — IPv4: -q -lf <v4 lease> -pf <v4 pid>
<device>; IPv6: -q -6 -lf <v6 lease> -pf <v6 pid> <device> — with the
lease/pid paths built from the fixed prefixes and the device name
(device eth1 gives IPv4 pid path /var/run/ns-dhclient4-eth1.pid), and
every command the run executes is dhclient with one of those two
argument lists. -/
theorem dhclient_invocation_args :
    (∀ deviceName : String,
      constructDHClientV4Args deviceName =
        ["-q", "-lf", "/var/lib/dhclient/ns-dhclient4-" ++ deviceName ++ ".leases",
         "-pf", "/var/run/ns-dhclient4-" ++ deviceName ++ ".pid", deviceName] ∧
      constructDHClientV6Args deviceName =
        ["-q", "-6", "-lf", "/var/lib/dhclient/ns-dhclient6-" ++ deviceName ++ ".leases",
         "-pf", "/var/run/ns-dhclient6-" ++ deviceName ++ ".pid", deviceName]) ∧
    constructDHClientLeasePIDFilePathIPV4 "eth1" = "/var/run/ns-dhclient4-eth1.pid" ∧
    (∀ (env : DhcpSetupEnv) (closure : setupNamespaceClosure) (exe : String)
        (args : List String),
      EngineCall.command exe args ∈ (setupNamespaceClosure.run env closure).2 →
      exe = dhclientExecutableName ∧
      (args = constructDHClientV4Args closure.deviceName ∨
        args = constructDHClientV6Args closure.deviceName)) := by
  refine ⟨fun deviceName => ⟨rfl, rfl⟩, rfl, ?_⟩
  intro env closure exe args hmem
  rcases dhcp_run_calls env closure _ hmem with
    h | ⟨l, h⟩ | ⟨l, a6, h6c, h⟩ | ⟨l, h⟩ | h | ⟨hne, h⟩ <;>
    simp_all

/-- C5: construction of the static-address setup context fails with
the descriptive error of the first failing parse whenever the IPv4
address does not parse, the IPv4 gateway does not parse, or a
non-empty IPv6 address is supplied and it or the IPv6 gateway does not
parse. The constructor consults only the parse functions — its type
shows it has no access to the device or kernel collaborators, so no
device lookup or kernel mutation can precede the failure, and on
failure no closure object is produced. -/
theorem static_setup_construction_validation
    (parseAddr : String → Except GoError Addr) (parseIP : String → Option IP)
    (ifName deviceName macAddress ipv4Address ipv6Address ipv4Gateway ipv6Gateway : String)
    (blockIMDS : Bool) :
    (∀ e, parseAddr ipv4Address = .error e →
      newSetupNamespaceClosureContext parseAddr parseIP ifName deviceName macAddress
          ipv4Address ipv6Address ipv4Gateway ipv6Gateway blockIMDS =
        .error (.wrapped
          "setupNamespaceClosure engine: unable to parse ipv4 address for the interface" e)) ∧
    (∀ a, parseAddr ipv4Address = .ok a → parseIP ipv4Gateway = none →
      newSetupNamespaceClosureContext parseAddr parseIP ifName deviceName macAddress
          ipv4Address ipv6Address ipv4Gateway ipv6Gateway blockIMDS =
        .error (.msg
          "setupNamespaceClosure engine: unable to parse address of the ipv4 gateway")) ∧
    (∀ a g e, ipv6Address ≠ "" → parseAddr ipv4Address = .ok a →
      parseIP ipv4Gateway = some g → parseAddr ipv6Address = .error e →
      newSetupNamespaceClosureContext parseAddr parseIP ifName deviceName macAddress
          ipv4Address ipv6Address ipv4Gateway ipv6Gateway blockIMDS =
        .error (.wrapped
          "setupNamespaceClosure engine: unable to parse ipv6 address for the interface" e)) ∧
    (∀ a g a6, ipv6Address ≠ "" → parseAddr ipv4Address = .ok a →
      parseIP ipv4Gateway = some g → parseAddr ipv6Address = .ok a6 →
      parseIP ipv6Gateway = none →
      newSetupNamespaceClosureContext parseAddr parseIP ifName deviceName macAddress
          ipv4Address ipv6Address ipv4Gateway ipv6Gateway blockIMDS =
        .error (.msg
          "setupNamespaceClosure engine: unable to parse address of the ipv6 gateway")) := by
  refine ⟨?_, ?_, ?_, ?_⟩
  · intro e h
    simp [newSetupNamespaceClosureContext, h]
  · intro a ha hg
    simp [newSetupNamespaceClosureContext, ha, hg]
  · intro a g e hne ha hg h6
    simp [newSetupNamespaceClosureContext, ha, hg, hne, h6]
  · intro a g a6 hne ha hg h6 hg6
    simp [newSetupNamespaceClosureContext, ha, hg, hne, h6, hg6]

/-- C10: with an empty IPv6 address string, construction of either
setup context never inspects the IPv6 gateway string — the static
constructor's result is the same for any two IPv6 gateway values, it
succeeds (whenever the IPv4 inputs parse) with no IPv6 address or
gateway in the context, the DHCP constructor likewise leaves the IPv6
address unset, and a context built this way performs no IPv6
address-add during the static run. -/
theorem empty_ipv6_ignores_ipv6_gateway
    (parseAddr : String → Except GoError Addr) (parseIP : String → Option IP)
    (ifName deviceName macAddress ipv4Address ipv4Gateway g6 g6alt : String)
    (blockIMDS : Bool) :
    (newSetupNamespaceClosureContext parseAddr parseIP ifName deviceName macAddress
        ipv4Address "" ipv4Gateway g6 blockIMDS =
      newSetupNamespaceClosureContext parseAddr parseIP ifName deviceName macAddress
        ipv4Address "" ipv4Gateway g6alt blockIMDS) ∧
    (∀ a g, parseAddr ipv4Address = .ok a → parseIP ipv4Gateway = some g →
      newSetupNamespaceClosureContext parseAddr parseIP ifName deviceName macAddress
          ipv4Address "" ipv4Gateway g6 blockIMDS =
        .ok { ifName := ifName, deviceName := deviceName, macAddress := macAddress,
              ipv4Addr := a, ipv6Addr := none, ipv4Gateway := g, ipv6Gateway := none,
              blockIMDS := blockIMDS }) ∧
    (∀ ctx, newSetupNamespaceClosureContext parseAddr parseIP ifName deviceName macAddress
        ipv4Address "" ipv4Gateway g6 blockIMDS = .ok ctx →
      ctx.ipv6Addr = none ∧ ctx.ipv6Gateway = none) ∧
    (∀ closure, newSetupNamespaceClosure parseAddr deviceName ipv4Address "" = .ok closure →
      closure.ipv6Addr = none) ∧
    (∀ (netLink : NetLinkEnv) ctx,
      newSetupNamespaceClosureContext parseAddr parseIP ifName deviceName macAddress
        ipv4Address "" ipv4Gateway g6 blockIMDS = .ok ctx →
      ∀ link a, EngineCall.addrAdd link a ∈ (setupNamespaceClosureContext.run netLink ctx).2 →
        a = ctx.ipv4Addr) := by
  have hnone : ∀ ctx, newSetupNamespaceClosureContext parseAddr parseIP ifName deviceName
      macAddress ipv4Address "" ipv4Gateway g6 blockIMDS = .ok ctx →
      ctx.ipv6Addr = none ∧ ctx.ipv6Gateway = none := by
    intro ctx h
    rcases ha : parseAddr ipv4Address with e | a
    · simp [newSetupNamespaceClosureContext, ha] at h
    · rcases hg : parseIP ipv4Gateway with _ | g
      · simp [newSetupNamespaceClosureContext, ha, hg] at h
      · simp [newSetupNamespaceClosureContext, ha, hg] at h
        simp [← h]
  refine ⟨?_, ?_, hnone, ?_, ?_⟩
  · simp [newSetupNamespaceClosureContext]
  · intro a g ha hg
    simp [newSetupNamespaceClosureContext, ha, hg]
  · intro closure h
    rcases ha : parseAddr ipv4Address with e | a
    · simp [newSetupNamespaceClosure, ha] at h
    · simp [newSetupNamespaceClosure, ha] at h
      simp [← h]
  · intro netLink ctx h link a hmem
    exact static_no_ipv6_addrAdd netLink ctx (hnone ctx h).1 link a hmem

/-- C1: in the static-address setup run, an EEXIST returned by the
route-add primitive is tolerated (run returns nil) only at the IPv6
default-gateway route step; the same EEXIST returned at the blackhole
(IMDS-block) route step or the IPv4 default-gateway route step makes
run return the corresponding wrapped error. -/
theorem route_exists_tolerance_policy
    (netLink : NetLinkEnv) (c : setupNamespaceClosureContext) (link : Link) (a6 : Addr)
    (h6 : c.ipv6Addr = some a6)
    (hB : c.blockIMDS = true)
    (h1 : netLink.linkByName c.deviceName = .ok link)
    (h2 : netLink.linkSetName link c.ifName = .ok ())
    (h3 : netLink.addrAdd link c.ipv4Addr = .ok ())
    (h4 : netLink.addrAdd link a6 = .ok ())
    (h5 : netLink.linkSetUp link = .ok ()) :
    (netLink.routeAdd (imdsBlackholeRoute imdsNet) = .error (.errno EEXIST) →
      (setupNamespaceClosureContext.run netLink c).1 =
        .error (.wrapped
          "setupNamespaceClosure engine: unable to add route to block instance metadata"
          (.errno EEXIST))) ∧
    (netLink.routeAdd (imdsBlackholeRoute imdsNet) = .ok () →
      netLink.routeAdd (ipv4GatewayRoute c) = .error (.errno EEXIST) →
      (setupNamespaceClosureContext.run netLink c).1 =
        .error (.wrapped
          "setupNamespaceClosure engine: unable to add the route for the ipv4 gateway"
          (.errno EEXIST))) ∧
    (netLink.routeAdd (imdsBlackholeRoute imdsNet) = .ok () →
      netLink.routeAdd (ipv4GatewayRoute c) = .ok () →
      netLink.routeAdd (ipv6GatewayRoute link c) = .error (.errno EEXIST) →
      (setupNamespaceClosureContext.run netLink c).1 = .ok ()) := by
  refine ⟨?_, ?_, ?_⟩
  · intro hRB
    simp [setupNamespaceClosureContext.run, h6, hB, h1, h2, h3, h4, h5,
      parseCIDR_imds, hRB]
  · intro hRB hR4
    simp [setupNamespaceClosureContext.run, h6, hB, h1, h2, h3, h4, h5,
      parseCIDR_imds, hRB, hR4]
  · intro hRB hR4 hR6
    simp [setupNamespaceClosureContext.run, h6, hB, h1, h2, h3, h4, h5,
      parseCIDR_imds, hRB, hR4, hR6, isRouteExistsError, EEXIST]

/-- Sample link for the concrete witnesses. -/
def sampleLink : Link := ⟨⟨"eth1", 3, "0a:1b:2c:3d:4e:5f"⟩⟩

/-- Sample netlink environment: every operation succeeds except that
adding the IPv6 gateway route (the only route carrying a nonzero link
index) reports a bare EEXIST errno. -/
def sampleNetLinkEnv : NetLinkEnv where
  linkByName := fun _ => .ok sampleLink
  linkSetName := fun _ _ => .ok ()
  addrAdd := fun _ _ => .ok ()
  linkSetUp := fun _ => .ok ()
  routeAdd := fun r => if r.linkIndex == 0 then .ok () else .error (.errno EEXIST)

/-- Sample static setup context with IPv6 configured and IMDS
blocking requested. -/
def sampleCtx : setupNamespaceClosureContext where
  ifName := "ecs-eth0"
  deviceName := "eth1"
  macAddress := "0a:1b:2c:3d:4e:5f"
  ipv4Addr := "10.0.1.5/24"
  ipv6Addr := some "2001:db8::5/64"
  ipv4Gateway := "10.0.1.1"
  ipv6Gateway := some "2001:db8::1"
  blockIMDS := true

/-- C1 witness: with the sample environment — blackhole and IPv4
routes succeed, the IPv6 gateway route reports a bare EEXIST — the
static setup run returns nil. -/
theorem route_exists_tolerance_policy_witness :
    (setupNamespaceClosureContext.run sampleNetLinkEnv sampleCtx).1 = .ok () :=
  (route_exists_tolerance_policy sampleNetLinkEnv sampleCtx sampleLink "2001:db8::5/64"
    rfl rfl rfl rfl rfl rfl rfl).2.2 (by decide) (by decide) (by decide)

/-- The calls of the static setup's steps 1-5 (resolve, rename, add
IPv4 address, add IPv6 address when configured, bring the link up), in
the order run issues them. -/
def staticStepsBeforeRoutes (c : setupNamespaceClosureContext) (link : Link) :
    List EngineCall :=
  [EngineCall.linkByName c.deviceName, EngineCall.linkSetName link c.ifName,
   EngineCall.addrAdd link c.ipv4Addr] ++
  (match c.ipv6Addr with
   | some a6 => [EngineCall.addrAdd link a6]
   | none => []) ++
  [EngineCall.linkSetUp link]

/-- The blackhole-route call of step 6, present only when IMDS
blocking is requested. -/
def staticImdsPart (c : setupNamespaceClosureContext) : List EngineCall :=
  if c.blockIMDS then [EngineCall.routeAdd (imdsBlackholeRoute imdsNet)] else []

/-- The IPv6 gateway-route call of step 8, present only when IPv6 is
configured. -/
def staticV6RoutePart (c : setupNamespaceClosureContext) (link : Link) : List EngineCall :=
  match c.ipv6Addr with
  | some _ => [EngineCall.routeAdd (ipv6GatewayRoute link c)]
  | none => []

/-- All the static setup's calls in order, for a run in which every
step is reached. -/
def staticFullTrace (c : setupNamespaceClosureContext) (link : Link) : List EngineCall :=
  staticStepsBeforeRoutes c link ++ staticImdsPart c ++
    [EngineCall.routeAdd (ipv4GatewayRoute c)] ++ staticV6RoutePart c link

/-- C2: the static setup run performs exactly the steps resolve,
rename, add IPv4 address, add IPv6 address (only if configured), bring
the link up, add the blackhole route (only if IMDS blocking is
requested), add the IPv4 default route, add the IPv6 default route
scoped to the device's link index (only if configured) — in that
order; the first failing step aborts the run with a wrapped error
identifying that step and a trace showing no later call, and run
returns nil exactly when every required step succeeds (with an EEXIST
errno at the IPv6 route step tolerated). -/
theorem static_setup_run_steps (netLink : NetLinkEnv) (c : setupNamespaceClosureContext)
    (link : Link) :
    (∀ e, netLink.linkByName c.deviceName = .error e →
      setupNamespaceClosureContext.run netLink c =
        (.error (.wrapped
          ("setupNamespaceClosure engine: unable to get link for device " ++ c.deviceName) e),
         [EngineCall.linkByName c.deviceName])) ∧
    (∀ e, netLink.linkByName c.deviceName = .ok link →
      netLink.linkSetName link c.ifName = .error e →
      setupNamespaceClosureContext.run netLink c =
        (.error (.wrapped "setupNamespaceClosure engine: unable to change interface name" e),
         [EngineCall.linkByName c.deviceName, EngineCall.linkSetName link c.ifName])) ∧
    (∀ e, netLink.linkByName c.deviceName = .ok link →
      netLink.linkSetName link c.ifName = .ok () →
      netLink.addrAdd link c.ipv4Addr = .error e →
      setupNamespaceClosureContext.run netLink c =
        (.error (.wrapped
          "setupNamespaceClosure engine: unable to add ipv4 address to the interface" e),
         [EngineCall.linkByName c.deviceName, EngineCall.linkSetName link c.ifName,
          EngineCall.addrAdd link c.ipv4Addr])) ∧
    (∀ a6 e, netLink.linkByName c.deviceName = .ok link →
      netLink.linkSetName link c.ifName = .ok () →
      netLink.addrAdd link c.ipv4Addr = .ok () →
      c.ipv6Addr = some a6 →
      netLink.addrAdd link a6 = .error e →
      setupNamespaceClosureContext.run netLink c =
        (.error (.wrapped
          "setupNamespaceClosure engine: unable to add ipv6 address to the interface" e),
         [EngineCall.linkByName c.deviceName, EngineCall.linkSetName link c.ifName,
          EngineCall.addrAdd link c.ipv4Addr, EngineCall.addrAdd link a6])) ∧
    (∀ e, netLink.linkByName c.deviceName = .ok link →
      netLink.linkSetName link c.ifName = .ok () →
      netLink.addrAdd link c.ipv4Addr = .ok () →
      (∀ a6, c.ipv6Addr = some a6 → netLink.addrAdd link a6 = .ok ()) →
      netLink.linkSetUp link = .error e →
      setupNamespaceClosureContext.run netLink c =
        (.error (.wrapped "setupNamespaceClosure engine: unable to bring up the device" e),
         staticStepsBeforeRoutes c link)) ∧
    (∀ e, netLink.linkByName c.deviceName = .ok link →
      netLink.linkSetName link c.ifName = .ok () →
      netLink.addrAdd link c.ipv4Addr = .ok () →
      (∀ a6, c.ipv6Addr = some a6 → netLink.addrAdd link a6 = .ok ()) →
      netLink.linkSetUp link = .ok () →
      c.blockIMDS = true →
      netLink.routeAdd (imdsBlackholeRoute imdsNet) = .error e →
      setupNamespaceClosureContext.run netLink c =
        (.error (.wrapped
          "setupNamespaceClosure engine: unable to add route to block instance metadata" e),
         staticStepsBeforeRoutes c link ++ [EngineCall.routeAdd (imdsBlackholeRoute imdsNet)])) ∧
    (∀ e, netLink.linkByName c.deviceName = .ok link →
      netLink.linkSetName link c.ifName = .ok () →
      netLink.addrAdd link c.ipv4Addr = .ok () →
      (∀ a6, c.ipv6Addr = some a6 → netLink.addrAdd link a6 = .ok ()) →
      netLink.linkSetUp link = .ok () →
      (c.blockIMDS = true → netLink.routeAdd (imdsBlackholeRoute imdsNet) = .ok ()) →
      netLink.routeAdd (ipv4GatewayRoute c) = .error e →
      setupNamespaceClosureContext.run netLink c =
        (.error (.wrapped
          "setupNamespaceClosure engine: unable to add the route for the ipv4 gateway" e),
         staticStepsBeforeRoutes c link ++ staticImdsPart c ++
           [EngineCall.routeAdd (ipv4GatewayRoute c)])) ∧
    (∀ a6 e, netLink.linkByName c.deviceName = .ok link →
      netLink.linkSetName link c.ifName = .ok () →
      netLink.addrAdd link c.ipv4Addr = .ok () →
      c.ipv6Addr = some a6 →
      netLink.addrAdd link a6 = .ok () →
      netLink.linkSetUp link = .ok () →
      (c.blockIMDS = true → netLink.routeAdd (imdsBlackholeRoute imdsNet) = .ok ()) →
      netLink.routeAdd (ipv4GatewayRoute c) = .ok () →
      netLink.routeAdd (ipv6GatewayRoute link c) = .error e →
      isRouteExistsError e = false →
      setupNamespaceClosureContext.run netLink c =
        (.error (.wrapped
          "setupNamespaceClosure engine: unable to add the route for the ipv6 gateway" e),
         staticFullTrace c link)) ∧
    (∀ a6 e, netLink.linkByName c.deviceName = .ok link →
      netLink.linkSetName link c.ifName = .ok () →
      netLink.addrAdd link c.ipv4Addr = .ok () →
      c.ipv6Addr = some a6 →
      netLink.addrAdd link a6 = .ok () →
      netLink.linkSetUp link = .ok () →
      (c.blockIMDS = true → netLink.routeAdd (imdsBlackholeRoute imdsNet) = .ok ()) →
      netLink.routeAdd (ipv4GatewayRoute c) = .ok () →
      netLink.routeAdd (ipv6GatewayRoute link c) = .error e →
      isRouteExistsError e = true →
      setupNamespaceClosureContext.run netLink c = (.ok (), staticFullTrace c link)) ∧
    (netLink.linkByName c.deviceName = .ok link →
      netLink.linkSetName link c.ifName = .ok () →
      netLink.addrAdd link c.ipv4Addr = .ok () →
      (∀ a6, c.ipv6Addr = some a6 → netLink.addrAdd link a6 = .ok ()) →
      netLink.linkSetUp link = .ok () →
      (c.blockIMDS = true → netLink.routeAdd (imdsBlackholeRoute imdsNet) = .ok ()) →
      netLink.routeAdd (ipv4GatewayRoute c) = .ok () →
      (∀ a6, c.ipv6Addr = some a6 → netLink.routeAdd (ipv6GatewayRoute link c) = .ok ()) →
      setupNamespaceClosureContext.run netLink c = (.ok (), staticFullTrace c link)) := by
  refine ⟨?_, ?_, ?_, ?_, ?_, ?_, ?_, ?_, ?_, ?_⟩
  · intro e h1
    simp [setupNamespaceClosureContext.run, h1]
  · intro e h1 h2
    simp [setupNamespaceClosureContext.run, h1, h2]
  · intro e h1 h2 h3
    simp [setupNamespaceClosureContext.run, h1, h2, h3]
  · intro a6 e h1 h2 h3 h6c h4
    simp [setupNamespaceClosureContext.run, h1, h2, h3, h6c, h4]
  · intro e h1 h2 h3 hv6 h5
    rcases h6c : c.ipv6Addr with _ | a6
    · simp [setupNamespaceClosureContext.run, staticStepsBeforeRoutes, h1, h2, h3, h6c, h5]
    · simp [setupNamespaceClosureContext.run, staticStepsBeforeRoutes, h1, h2, h3, h6c,
        hv6 a6 h6c, h5]
  · intro e h1 h2 h3 hv6 h5 hB hRB
    rcases h6c : c.ipv6Addr with _ | a6
    · simp [setupNamespaceClosureContext.run, staticStepsBeforeRoutes, h1, h2, h3, h6c, h5,
        hB, parseCIDR_imds, hRB]
    · simp [setupNamespaceClosureContext.run, staticStepsBeforeRoutes, h1, h2, h3, h6c,
        hv6 a6 h6c, h5, hB, parseCIDR_imds, hRB]
  · intro e h1 h2 h3 hv6 h5 hImds hR4
    rcases h6c : c.ipv6Addr with _ | a6 <;> cases hB : c.blockIMDS
    · simp [setupNamespaceClosureContext.run, staticStepsBeforeRoutes, staticImdsPart,
        h1, h2, h3, h6c, h5, hB, hR4]
    · simp [setupNamespaceClosureContext.run, staticStepsBeforeRoutes, staticImdsPart,
        h1, h2, h3, h6c, h5, hB, parseCIDR_imds, hImds hB, hR4]
    · simp [setupNamespaceClosureContext.run, staticStepsBeforeRoutes, staticImdsPart,
        h1, h2, h3, h6c, hv6 a6 h6c, h5, hB, hR4]
    · simp [setupNamespaceClosureContext.run, staticStepsBeforeRoutes, staticImdsPart,
        h1, h2, h3, h6c, hv6 a6 h6c, h5, hB, parseCIDR_imds, hImds hB, hR4]
  · intro a6 e h1 h2 h3 h6c h4 h5 hImds hR4 hR6 hIR
    cases hB : c.blockIMDS
    · simp [setupNamespaceClosureContext.run, staticStepsBeforeRoutes, staticImdsPart,
        staticFullTrace, staticV6RoutePart, h1, h2, h3, h6c, h4, h5, hB, hR4, hR6, hIR]
    · simp [setupNamespaceClosureContext.run, staticStepsBeforeRoutes, staticImdsPart,
        staticFullTrace, staticV6RoutePart, h1, h2, h3, h6c, h4, h5, hB, parseCIDR_imds,
        hImds hB, hR4, hR6, hIR]
  · intro a6 e h1 h2 h3 h6c h4 h5 hImds hR4 hR6 hIR
    cases hB : c.blockIMDS
    · simp [setupNamespaceClosureContext.run, staticStepsBeforeRoutes, staticImdsPart,
        staticFullTrace, staticV6RoutePart, h1, h2, h3, h6c, h4, h5, hB, hR4, hR6, hIR]
    · simp [setupNamespaceClosureContext.run, staticStepsBeforeRoutes, staticImdsPart,
        staticFullTrace, staticV6RoutePart, h1, h2, h3, h6c, h4, h5, hB, parseCIDR_imds,
        hImds hB, hR4, hR6, hIR]
  · intro h1 h2 h3 hv6 h5 hImds hR4 hv6r
    rcases h6c : c.ipv6Addr with _ | a6 <;> cases hB : c.blockIMDS
    · simp [setupNamespaceClosureContext.run, staticStepsBeforeRoutes, staticImdsPart,
        staticFullTrace, staticV6RoutePart, h1, h2, h3, h6c, h5, hB, hR4]
    · simp [setupNamespaceClosureContext.run, staticStepsBeforeRoutes, staticImdsPart,
        staticFullTrace, staticV6RoutePart, h1, h2, h3, h6c, h5, hB, parseCIDR_imds,
        hImds hB, hR4]
    · simp [setupNamespaceClosureContext.run, staticStepsBeforeRoutes, staticImdsPart,
        staticFullTrace, staticV6RoutePart, h1, h2, h3, h6c, hv6 a6 h6c, h5, hB, hR4,
        hv6r a6 h6c]
    · simp [setupNamespaceClosureContext.run, staticStepsBeforeRoutes, staticImdsPart,
        staticFullTrace, staticV6RoutePart, h1, h2, h3, h6c, hv6 a6 h6c, h5, hB,
        parseCIDR_imds, hImds hB, hR4, hv6r a6 h6c]

/-- Every collaborator call one stopDHClient invocation can perform:
a read of its pid-file path, a process lookup, a kill. -/
lemma stopDHClient_calls (env : TeardownEnv) (path : String) :
    ∀ call ∈ (teardownNamespaceClosure.stopDHClient env path).2,
      call = .readFile path ∨ (∃ pid, call = .findProcess pid) ∨
        (∃ process, call = .kill process) := by
  intro call hmem
  rcases hr : env.readFile path with e | s
  · simp [teardownNamespaceClosure.stopDHClient, hr] at hmem
    simp [hmem]
  · rcases ha : goAtoi (goTrimSpace s) with e | pid
    · simp [teardownNamespaceClosure.stopDHClient, hr, ha] at hmem
      simp [hmem]
    · rcases hf : env.findProcess pid with e | process
      · simp [teardownNamespaceClosure.stopDHClient, hr, ha, hf] at hmem
        rcases hmem with rfl | rfl <;> simp
      · rcases hk : env.kill process with _ | e <;>
          simp [teardownNamespaceClosure.stopDHClient, hr, ha, hf, hk] at hmem <;>
          rcases hmem with rfl | rfl | rfl <;> simp

/-- C3: the DHCP-variant teardown run resolves the device by hardware
address, reads the IPv4 pid file at the deterministic path for the
resolved device name, parses its contents as a trimmed integer,
obtains a process handle for that pid and kills it; a failure at the
resolve, read, parse, handle-acquisition or kill stage returns the
wrapped stage-identifying error with no later call performed; the IPv6
stop runs, on the IPv6 pid-file path, only when the stopDHClient6 flag
is set and the IPv4 stop succeeded; run returns nil exactly when every
required stop succeeds. -/
theorem dhcp_teardown_run_stages (env : TeardownEnv) (closure : teardownNamespaceClosure)
    (link : Link) :
    (∀ e, getLinkByHardwareAddress env.linkList closure.hardwareAddr = .error e →
      teardownNamespaceClosure.run env closure =
        (.error (.wrapped
          ("teardownNamespaceClosure engine: unable to get device with hardware address " ++
            closure.hardwareAddr) e),
         [EngineCall.linkList])) ∧
    (∀ e, getLinkByHardwareAddress env.linkList closure.hardwareAddr = .ok link →
      env.readFile (constructDHClientLeasePIDFilePathIPV4 link.attrs.name) = .error e →
      teardownNamespaceClosure.run env closure =
        (.error (.wrapped
          ("teardownNamespaceClosure engine: error reading dhclient pid from " ++
            constructDHClientLeasePIDFilePathIPV4 link.attrs.name) e),
         [EngineCall.linkList,
          EngineCall.readFile (constructDHClientLeasePIDFilePathIPV4 link.attrs.name)])) ∧
    (∀ s e, getLinkByHardwareAddress env.linkList closure.hardwareAddr = .ok link →
      env.readFile (constructDHClientLeasePIDFilePathIPV4 link.attrs.name) = .ok s →
      goAtoi (goTrimSpace s) = .error e →
      teardownNamespaceClosure.run env closure =
        (.error (.wrapped
          ("teardownNamespaceClosure engine: error parsing dhclient pid from " ++
            constructDHClientLeasePIDFilePathIPV4 link.attrs.name) e),
         [EngineCall.linkList,
          EngineCall.readFile (constructDHClientLeasePIDFilePathIPV4 link.attrs.name)])) ∧
    (∀ s pid e, getLinkByHardwareAddress env.linkList closure.hardwareAddr = .ok link →
      env.readFile (constructDHClientLeasePIDFilePathIPV4 link.attrs.name) = .ok s →
      goAtoi (goTrimSpace s) = .ok pid →
      env.findProcess pid = .error e →
      teardownNamespaceClosure.run env closure =
        (.error (.wrapped
          ("teardownNamespaceClosure engine: error getting process handle for dhclient, pid file: " ++
            constructDHClientLeasePIDFilePathIPV4 link.attrs.name) e),
         [EngineCall.linkList,
          EngineCall.readFile (constructDHClientLeasePIDFilePathIPV4 link.attrs.name),
          EngineCall.findProcess pid])) ∧
    (∀ s pid process e,
      getLinkByHardwareAddress env.linkList closure.hardwareAddr = .ok link →
      env.readFile (constructDHClientLeasePIDFilePathIPV4 link.attrs.name) = .ok s →
      goAtoi (goTrimSpace s) = .ok pid →
      env.findProcess pid = .ok process →
      env.kill process = some e →
      teardownNamespaceClosure.run env closure =
        (.error (.wrapped
          ("teardownNamespaceClosure engine: error stopping the dhclient process, pid file: " ++
            constructDHClientLeasePIDFilePathIPV4 link.attrs.name) e),
         [EngineCall.linkList,
          EngineCall.readFile (constructDHClientLeasePIDFilePathIPV4 link.attrs.name),
          EngineCall.findProcess pid, EngineCall.kill process])) ∧
    (∀ s pid process, closure.stopDHClient6 = false →
      getLinkByHardwareAddress env.linkList closure.hardwareAddr = .ok link →
      env.readFile (constructDHClientLeasePIDFilePathIPV4 link.attrs.name) = .ok s →
      goAtoi (goTrimSpace s) = .ok pid →
      env.findProcess pid = .ok process →
      env.kill process = none →
      teardownNamespaceClosure.run env closure =
        (.ok (),
         [EngineCall.linkList,
          EngineCall.readFile (constructDHClientLeasePIDFilePathIPV4 link.attrs.name),
          EngineCall.findProcess pid, EngineCall.kill process])) ∧
    (∀ s pid process, closure.stopDHClient6 = true →
      getLinkByHardwareAddress env.linkList closure.hardwareAddr = .ok link →
      env.readFile (constructDHClientLeasePIDFilePathIPV4 link.attrs.name) = .ok s →
      goAtoi (goTrimSpace s) = .ok pid →
      env.findProcess pid = .ok process →
      env.kill process = none →
      teardownNamespaceClosure.run env closure =
        ((teardownNamespaceClosure.stopDHClient env
            (constructDHClientLeasePIDFilePathIPV6 link.attrs.name)).1,
         [EngineCall.linkList,
          EngineCall.readFile (constructDHClientLeasePIDFilePathIPV4 link.attrs.name),
          EngineCall.findProcess pid, EngineCall.kill process] ++
          (teardownNamespaceClosure.stopDHClient env
            (constructDHClientLeasePIDFilePathIPV6 link.attrs.name)).2)) ∧
    (getLinkByHardwareAddress env.linkList closure.hardwareAddr = .ok link →
      (closure.stopDHClient6 = false ∨
        (∃ e, (teardownNamespaceClosure.stopDHClient env
          (constructDHClientLeasePIDFilePathIPV4 link.attrs.name)).1 = .error e)) →
      ∀ p, EngineCall.readFile p ∈ (teardownNamespaceClosure.run env closure).2 →
        p = constructDHClientLeasePIDFilePathIPV4 link.attrs.name) := by
  refine ⟨?_, ?_, ?_, ?_, ?_, ?_, ?_, ?_⟩
  · intro e hres
    simp [teardownNamespaceClosure.run, hres]
  · intro e hres hr
    simp [teardownNamespaceClosure.run, teardownNamespaceClosure.stopDHClient, hres, hr]
  · intro s e hres hr ha
    simp [teardownNamespaceClosure.run, teardownNamespaceClosure.stopDHClient, hres, hr, ha]
  · intro s pid e hres hr ha hf
    simp [teardownNamespaceClosure.run, teardownNamespaceClosure.stopDHClient, hres, hr,
      ha, hf]
  · intro s pid process e hres hr ha hf hk
    simp [teardownNamespaceClosure.run, teardownNamespaceClosure.stopDHClient, hres, hr,
      ha, hf, hk]
  · intro s pid process hflag hres hr ha hf hk
    simp [teardownNamespaceClosure.run, teardownNamespaceClosure.stopDHClient, hres, hr,
      ha, hf, hk, hflag]
  · intro s pid process hflag hres hr ha hf hk
    have hs4 : teardownNamespaceClosure.stopDHClient env
        (constructDHClientLeasePIDFilePathIPV4 link.attrs.name) =
        (.ok (),
         [EngineCall.readFile (constructDHClientLeasePIDFilePathIPV4 link.attrs.name),
          EngineCall.findProcess pid, EngineCall.kill process]) := by
      simp [teardownNamespaceClosure.stopDHClient, hr, ha, hf, hk]
    rcases hs6 : teardownNamespaceClosure.stopDHClient env
        (constructDHClientLeasePIDFilePathIPV6 link.attrs.name) with ⟨r6, t6⟩
    cases r6 <;> simp [teardownNamespaceClosure.run, hres, hs4, hflag, hs6]
  · intro hres hpre p hmem
    rcases hs4 : teardownNamespaceClosure.stopDHClient env
        (constructDHClientLeasePIDFilePathIPV4 link.attrs.name) with ⟨r4, t4⟩
    have hcalls := stopDHClient_calls env (constructDHClientLeasePIDFilePathIPV4 link.attrs.name)
    rw [hs4] at hcalls
    have hof : EngineCall.readFile p ∈ t4 → p = constructDHClientLeasePIDFilePathIPV4
        link.attrs.name := by
      intro hin
      rcases hcalls _ hin with h | ⟨pid, h⟩ | ⟨process, h⟩ <;> simp_all
    rcases hpre with hflag | ⟨e, herr⟩
    · cases r4 with
      | error e4 =>
        simp [teardownNamespaceClosure.run, hres, hs4] at hmem
        exact hof hmem
      | ok u4 =>
        simp [teardownNamespaceClosure.run, hres, hs4, hflag] at hmem
        exact hof hmem
    · rw [hs4] at herr
      simp at herr
      rcases herr with ⟨rfl⟩
      simp [teardownNamespaceClosure.run, hres, hs4] at hmem
      exact hof hmem

/-- Sample teardown environment: one link visible, every pid file
reads as the non-numeric text abc plus newline, process lookup and
kill succeed. -/
def sampleTeardownEnv : TeardownEnv where
  linkList := .ok [sampleLink]
  readFile := fun _ => .ok "abc\n"
  findProcess := fun pid => .ok ⟨pid⟩
  kill := fun _ => none

/-- Sample DHCP teardown closure for the sample link's MAC. -/
def sampleTeardown : teardownNamespaceClosure where
  hardwareAddr := "0a:1b:2c:3d:4e:5f"
  stopDHClient6 := false

/-- C3 witness: a pid file containing the non-numeric text abc plus
newline makes teardown fail at the parse stage with the wrapped
stage-identifying error, after exactly the enumerate and read calls. -/
theorem dhcp_teardown_nonnumeric_pid_witness :
    teardownNamespaceClosure.run sampleTeardownEnv sampleTeardown =
      (.error (.wrapped
        ("teardownNamespaceClosure engine: error parsing dhclient pid from " ++
          constructDHClientLeasePIDFilePathIPV4 sampleLink.attrs.name)
        (.msg "strconv.Atoi: parsing abc: invalid syntax")),
       [EngineCall.linkList,
        EngineCall.readFile (constructDHClientLeasePIDFilePathIPV4 sampleLink.attrs.name)]) :=
  (dhcp_teardown_run_stages sampleTeardownEnv sampleTeardown sampleLink).2.2.1
    "abc\n" (.msg "strconv.Atoi: parsing abc: invalid syntax")
    (by decide) rfl (by decide)
end EcsEni
